import Mathlib

/-!
Verification of the ciscosparkapi client library.

The first part embeds `CiscoSparkAPI.__init__` from
`src/ciscosparkapi/__init__.py` (argument type assertions, the
SPARK_ACCESS_TOKEN environment fallback, the missing-token error, and the
resulting session state).  The second part models the RestSession /
RateLimitPolicy / pagination layer described in the specification, whose
implementation file (`ciscosparkapi/restsession.py`) is not among the
sources; those definitions are marked `Modelled from the spec`.
-/

namespace Ciscosparkapi

/-- The Python values that can reach the `CiscoSparkAPI.__init__` argument
type assertions: `None`, a `str`, an `int`, or any other object. -/
inductive PyVal where
  | pyNone : PyVal
  | pyStr : String → PyVal
  | pyInt : Int → PyVal
  | pyOther : PyVal
  deriving DecidableEq, Repr

/-- Python truthiness (`bool(x)`) for the values above: `None` and the
empty string are falsy, a nonzero int and any other object are truthy. -/
def PyVal.truthy : PyVal → Bool
  | .pyNone => false
  | .pyStr s => s ≠ ""
  | .pyInt n => n ≠ 0
  | .pyOther => true

/-- Python `isinstance(x, string_types)`. -/
def PyVal.isStr : PyVal → Bool
  | .pyStr _ => true
  | _ => false

/-- Python `isinstance(x, int)`. -/
def PyVal.isInt : PyVal → Bool
  | .pyInt _ => true
  | _ => false

/-- Python `x is None`. -/
def PyVal.isNone : PyVal → Bool
  | .pyNone => true
  | _ => false

/-- The string payload of a `str` value, when there is one. -/
def PyVal.asStr : PyVal → Option String
  | .pyStr s => some s
  | _ => none

/-- Line 35 of `__init__.py`. -/
def DEFAULT_BASE_URL : String := "https://api.ciscospark.com/v1/"

/-- Line 36 of `__init__.py`. -/
def DEFAULT_TIMEOUT : Int := 60

/-- The error message built on lines 110-114 of `__init__.py`. -/
def ACCESS_TOKEN_ERROR_MESSAGE : String :=
  "You must provide an access token to interact " ++
  "with the Cisco Spark APIs, either via the " ++
  "access_token argument or via a " ++
  "SPARK_ACCESS_TOKEN environment variable.  " ++
  "None provided."

/-- The exceptions `CiscoSparkAPI.__init__` can raise before any network
activity: an `AssertionError` from a failed `assert`, or a
`ciscosparkapiException` carrying its message. -/
inductive InitError where
  | assertionError : InitError
  | ciscosparkapiException : String → InitError
  deriving DecidableEq, Repr

/-- The state a successful construction stores in the `RestSession`
(lines 116-122 of `__init__.py`), as exposed back by the `access_token`,
`base_url` and `timeout` properties on lines 134-144. -/
structure Session where
  access_token : String
  base_url : String
  timeout : Int
  deriving DecidableEq, Repr

/-- Modelled from the spec: the message of the fatal
`ciscosparkapiException`-class error that `RestSession.__init__` raises
on invalid constructor arguments (spec section 4.3).
`ciscosparkapi/restsession.py` is missing from the sources, so the exact
text is not known and this fixed stand-in is used. -/
def RESTSESSION_VALIDATION_ERROR_MESSAGE : String :=
  "RestSession constructor argument validation failed."

/-- Modelled from the spec: `RestSession.__init__(access_token,
base_url, timeout)`, invoked at line 122 of `__init__.py`; its
implementation file `ciscosparkapi/restsession.py` is missing from the
sources.  Spec section 4.3: the constructor validates access token
non-empty, `base_url` non-empty, and `timeout` a positive integer;
invalid input is a fatal construction-time `ciscosparkapiException`-class
error, not a deferred runtime error.  A valid construction stores the
three values unchanged (they are exposed back by the `access_token`,
`base_url` and `timeout` properties). -/
def RestSession.init (access_token base_url : String) (timeout : Int) :
    Except InitError Session :=
  if access_token = "" then
    .error (.ciscosparkapiException RESTSESSION_VALIDATION_ERROR_MESSAGE)
  else if base_url = "" then
    .error (.ciscosparkapiException RESTSESSION_VALIDATION_ERROR_MESSAGE)
  else if timeout ≤ 0 then
    .error (.ciscosparkapiException RESTSESSION_VALIDATION_ERROR_MESSAGE)
  else .ok ⟨access_token, base_url, timeout⟩

/-- `CiscoSparkAPI.__init__` (lines 67-122 of `__init__.py`): in order,
the three `assert` statements of lines 104-106, the
`os.environ.get('SPARK_ACCESS_TOKEN', None)` lookup and fallback of
lines 107-108 (the environment is passed explicitly as `env`), the
falsy-token check raising `ciscosparkapiException` on lines 109-115, and
finally the `RestSession(access_token, base_url, timeout=timeout)` call
of lines 116-122, whose validation is the spec-modelled
`RestSession.init` above.  All of this runs once, at construction,
before any network call. -/
def CiscoSparkAPI.init (access_token base_url timeout : PyVal)
    (env : Option String) : Except InitError Session :=
  if !(access_token.isNone || access_token.isStr) then
    .error .assertionError
  else
    match base_url, timeout with
    | .pyStr b, .pyInt n =>
      let spark_access_token : Option String := env
      let resolved : Option String :=
        if access_token.truthy then access_token.asStr else spark_access_token
      match resolved with
      | some t =>
        if t = "" then .error (.ciscosparkapiException ACCESS_TOKEN_ERROR_MESSAGE)
        else RestSession.init t b n
      | none => .error (.ciscosparkapiException ACCESS_TOKEN_ERROR_MESSAGE)
    | .pyStr _, _ => .error .assertionError
    | _, _ => .error .assertionError

/-- `CiscoSparkAPI(access_token)` with the defaulted parameters of the
signature on lines 67-68 of `__init__.py`: `base_url` defaults to
`DEFAULT_BASE_URL` and `timeout` to `DEFAULT_TIMEOUT`. -/
def CiscoSparkAPI.initDefault (access_token : PyVal) (env : Option String) :
    Except InitError Session :=
  CiscoSparkAPI.init access_token (.pyStr DEFAULT_BASE_URL)
    (.pyInt DEFAULT_TIMEOUT) env

/-- Modelled from the spec: the `RetryDecision` record returned by
`RateLimitPolicy.shouldRetry` (spec section 4.2).  The implementation
file `ciscosparkapi/restsession.py` is missing from the sources, so the
rate-limit layer is taken from the specification's contract. -/
structure RetryDecision where
  retry : Bool
  waitSeconds : Nat
  deriving DecidableEq, Repr

/-- Modelled from the spec: the fixed exponential-backoff seed of spec
section 4.2 ("seeded at a fixed default (e.g., 15s)"). -/
def DEFAULT_BACKOFF_SECONDS : Nat := 15

/-- Modelled from the spec: the maximum attempt count of spec section
4.2 ("capped at a maximum attempt count (e.g., 10)"). -/
def MAX_ATTEMPTS : Nat := 10

/-- Modelled from the spec: `RateLimitPolicy.shouldRetry(statusCode,
responseHeaders, attemptCount)` (spec section 4.2), with the relevant
header — the optional `Retry-After` seconds — passed directly.  On a 429
past the maximum attempt count the decision is not to retry; otherwise
the wait is the `Retry-After` value when present, else exponential
backoff from the fixed seed.  `ciscosparkapi/restsession.py`, which
implements this, is missing from the sources. -/
def shouldRetry (statusCode : Nat) (retryAfter : Option Nat)
    (attemptCount : Nat) : RetryDecision :=
  if statusCode = 429 then
    if MAX_ATTEMPTS ≤ attemptCount then ⟨false, 0⟩
    else
      match retryAfter with
      | some w => ⟨true, w⟩
      | none => ⟨true, DEFAULT_BACKOFF_SECONDS * 2 ^ (attemptCount - 1)⟩
  else ⟨false, 0⟩

/-- Modelled from the spec: the body of an HTTP response as RestSession
sees it — a decoded JSON value, an empty body, or bytes that fail to
parse as JSON (spec sections 4.1 and 4.3). -/
inductive Body (α : Type) where
  | json : α → Body α
  | empty : Body α
  | malformed : Body α
  deriving DecidableEq, Repr

/-- Modelled from the spec: one HTTP response: status code, the optional
`Retry-After` header in seconds, and the body (spec section 4.1). -/
structure HttpResponse (α : Type) where
  status : Nat
  retryAfter : Option Nat
  body : Body α
  deriving DecidableEq, Repr

/-- Modelled from the spec: the outcome RestSession's request wrapper
surfaces to its caller (spec sections 4.3 and 7): a decoded JSON value,
a 204 completion, or one of `MalformedResponseError`, `SparkApiError`,
`RateLimitExceededError`. -/
inductive RequestOutcome (α : Type) where
  | success : α → RequestOutcome α
  | noContent : RequestOutcome α
  | malformedResponseError : RequestOutcome α
  | sparkApiError : Nat → RequestOutcome α
  | rateLimitExceededError : RequestOutcome α
  deriving DecidableEq, Repr

/-- Modelled from the spec: how RestSession turns a final (non-retried)
response into an outcome (spec section 4.3): a 204 completes with no
content; any other 2xx must carry a JSON-parseable body, else
`MalformedResponseError`; a non-2xx is a `SparkApiError` carrying the
status.  `ciscosparkapi/restsession.py` is missing from the sources. -/
def handleResponse (r : HttpResponse α) : RequestOutcome α :=
  if 200 ≤ r.status ∧ r.status < 300 then
    if r.status = 204 then .noContent
    else
      match r.body with
      | .json j => .success j
      | .empty => .malformedResponseError
      | .malformed => .malformedResponseError
  else .sparkApiError r.status

/-- Modelled from the spec: RestSession's retry loop (spec section 4.3):
issue the request; on a 429 consult `shouldRetry` with the count of
attempts made so far and either wait and retry, or stop and surface
`RateLimitExceededError`; any other status goes to `handleResponse`.
The server is a function from the zero-based index of the HTTP request
actually issued to its response, so the first component of the result is
the total number of requests issued.  Recursion is bounded by the fuel
argument; `request` below supplies fuel `MAX_ATTEMPTS`, which the
attempt-count cap keeps from running out.
`ciscosparkapi/restsession.py` is missing from the sources. -/
def requestLoop (server : Nat → HttpResponse α) :
    Nat → Nat → Nat × RequestOutcome α
  | 0, k => (k, .rateLimitExceededError)
  | fuel + 1, k =>
    if (server k).status = 429 then
      if (shouldRetry (server k).status (server k).retryAfter (k + 1)).retry then
        requestLoop server fuel (k + 1)
      else (k + 1, .rateLimitExceededError)
    else (k + 1, handleResponse (server k))

/-- Modelled from the spec: a single RestSession request with its retry
loop, starting from zero attempts. -/
def request (server : Nat → HttpResponse α) : Nat × RequestOutcome α :=
  requestLoop server MAX_ATTEMPTS 0

/-- Modelled from the spec: one fetched page as the pagination generator
decodes it (spec section 4.4): a JSON body carrying the ordered `items`
list and the optional next-link cursor extracted from the `Link`
response header, or a body that fails to parse as JSON.  Cursors are the
page identifiers the server resolves.  The generator container in
`ciscosparkapi/restsession.py` is missing from the sources. -/
inductive PageBody (α : Type) where
  | json : List α → Option Nat → PageBody α
  | malformed : PageBody α
  deriving DecidableEq, Repr

/-- Modelled from the spec: the result of consuming a `requestList`
sequence to its end (spec sections 4.4 and 7): either every yielded
item, or the items yielded before a malformed page body raised
`MalformedResponseError` and halted iteration. -/
inductive ListResult (α : Type) where
  | ok : List α → ListResult α
  | malformedResponseAfter : List α → ListResult α
  deriving DecidableEq, Repr

/-- Modelled from the spec: the `requestList` pagination loop (spec
section 4.4): fetch the page at the cursor; yield its items one at a
time in server order; a fetched page with zero items terminates the
sequence; otherwise follow the `next` link when present and terminate
when it is absent; a page body that fails to parse as JSON raises
`MalformedResponseError` after the preceding pages' items were yielded.
Recursion is bounded by the fuel argument, which the claims instantiate
above the page count.  `ciscosparkapi/restsession.py` is missing from
the sources. -/
def requestListAux (server : Nat → PageBody α) : Nat → Nat → ListResult α
  | 0, _ => .ok []
  | fuel + 1, c =>
    match server c with
    | .malformed => .malformedResponseAfter []
    | .json items next =>
      if items.isEmpty then .ok []
      else
        match next with
        | none => .ok items
        | some c2 =>
          match requestListAux server fuel c2 with
          | .ok rest => .ok (items ++ rest)
          | .malformedResponseAfter rest =>
            .malformedResponseAfter (items ++ rest)

/-- Modelled from the spec: a full `requestList` call, starting from the
first page (cursor 0). -/
def requestList (server : Nat → PageBody α) (fuel : Nat) : ListResult α :=
  requestListAux server fuel 0

/-- A server exposing `N` pages of `M` items each: page `i` carries the
items `i*M, ..., i*M + M - 1` and links to page `i + 1` while one
remains. -/
def pagesServer (N M : Nat) : Nat → PageBody Nat :=
  fun i =>
    if i < N then
      .json (List.range' (i * M) M) (if i + 1 < N then some (i + 1) else none)
    else .json [] none

/-- A server whose first `K` pages each carry one item and link onward,
and whose page `K` has a body that fails to parse as JSON. -/
def malformedChain (K : Nat) : Nat → PageBody Nat :=
  fun i => if i < K then .json [i] (some (i + 1)) else .malformed

end Ciscosparkapi

namespace Ciscosparkapi

/-- On a 429 the policy decides to retry exactly when the attempt count
is still below the maximum. -/
theorem shouldRetry_retry_iff (retryAfter : Option Nat) (a : Nat) :
    (shouldRetry 429 retryAfter a).retry = true ↔ a < MAX_ATTEMPTS := by
  unfold shouldRetry
  rcases Nat.lt_or_ge a MAX_ATTEMPTS with h | h
  · simp [Nat.not_le.mpr h, h]
    cases retryAfter <;> simp
  · simp [h, Nat.not_lt.mpr h]

/-- The retry loop invariant for a server that answers 429 to every one
of the first `MAX_ATTEMPTS` requests: starting from `k` issued requests
with enough fuel, the loop stops after exactly `MAX_ATTEMPTS` requests
with `RateLimitExceededError`. -/
theorem requestLoop_allRateLimited {α : Type} (server : Nat → HttpResponse α)
    (h429 : ∀ i, i < MAX_ATTEMPTS → (server i).status = 429) :
    ∀ fuel k, k < MAX_ATTEMPTS → MAX_ATTEMPTS ≤ k + fuel →
      requestLoop server fuel k = (MAX_ATTEMPTS, .rateLimitExceededError) := by
  intro fuel
  induction fuel with
  | zero =>
    intro k hk hfuel
    omega
  | succ fuel ih =>
    intro k hk hfuel
    unfold requestLoop
    rw [h429 k hk]
    rcases Nat.lt_or_ge (k + 1) MAX_ATTEMPTS with hlt | hge
    · rw [if_pos rfl, if_pos ((shouldRetry_retry_iff _ _).mpr hlt)]
      exact ih (k + 1) hlt (by omega)
    · have hnr : ¬ (shouldRetry 429 (server k).retryAfter (k + 1)).retry = true := by
        rw [shouldRetry_retry_iff]
        omega
      rw [if_pos rfl, if_neg hnr]
      have hkeq : k + 1 = MAX_ATTEMPTS := by omega
      rw [hkeq]

/-- C5: when every one of the first `MAX_ATTEMPTS` requests is answered
429, the request surfaces `RateLimitExceededError` and exactly
`MAX_ATTEMPTS` requests were issued — none after the maximum was
exceeded, whatever the server would answer beyond it. -/
theorem C5_rate_limit_exhaustion {α : Type} (server : Nat → HttpResponse α)
    (h429 : ∀ i, i < MAX_ATTEMPTS → (server i).status = 429) :
    request server = (MAX_ATTEMPTS, .rateLimitExceededError) :=
  requestLoop_allRateLimited server h429 MAX_ATTEMPTS 0 (by decide)
    (by omega)

theorem C5_rate_limit_exhaustion_witness :
    request (fun _ => (⟨429, some 1, Body.malformed⟩ : HttpResponse Nat)) =
      (MAX_ATTEMPTS, .rateLimitExceededError) :=
  C5_rate_limit_exhaustion _ (fun _ _ => rfl)

/-- C6: whenever a 429 response carries a `Retry-After` value and the
policy decides to retry, the computed wait is at least that value. -/
theorem C6_retry_after_respected (w a : Nat)
    (h : (shouldRetry 429 (some w) a).retry = true) :
    w ≤ (shouldRetry 429 (some w) a).waitSeconds := by
  have ha : a < MAX_ATTEMPTS := (shouldRetry_retry_iff _ _).mp h
  unfold shouldRetry
  simp [Nat.not_le.mpr ha]

theorem C6_retry_after_respected_witness :
    5 ≤ (shouldRetry 429 (some 5) 1).waitSeconds :=
  C6_retry_after_respected 5 1 (by decide)

/-- Walking the `pagesServer` chain from page `i` yields the items of
pages `i` through `N - 1` in order, when each page is non-empty. -/
theorem requestListAux_pagesServer (N M : Nat) (hM : 0 < M) :
    ∀ fuel i, i < N → N - i ≤ fuel →
      requestListAux (pagesServer N M) fuel i =
        .ok (List.range' (i * M) ((N - i) * M)) := by
  intro fuel
  induction fuel with
  | zero =>
    intro i hi hf
    omega
  | succ fuel ih =>
    intro i hi hf
    have hne : (List.range' (i * M) M).isEmpty ≠ true := by
      simp [List.isEmpty_iff, List.range'_eq_nil]
      omega
    rcases Nat.lt_or_ge (i + 1) N with h2 | h2
    · have hserver : pagesServer N M i =
          .json (List.range' (i * M) M) (some (i + 1)) := by
        unfold pagesServer
        rw [if_pos hi, if_pos h2]
      have hrec := ih (i + 1) h2 (by omega)
      rw [requestListAux, hserver]
      simp only [if_neg hne, hrec]
      congr 1
      rw [Nat.succ_mul i M, List.range'_append_1]
      have hNi : (N - (i + 1)) * M + M = (N - i) * M := by
        have h3 : N - (i + 1) + 1 = N - i := by omega
        rw [← h3, Nat.add_mul, Nat.one_mul]
      rw [hNi]
    · have hiN : i + 1 = N := by omega
      have hserver : pagesServer N M i =
          .json (List.range' (i * M) M) none := by
        unfold pagesServer
        rw [if_pos hi, if_neg (by omega)]
      rw [requestListAux, hserver]
      simp only [if_neg hne]
      have h1 : N - i = 1 := by omega
      rw [h1, Nat.one_mul]

/-- C4: `requestList` over `N` pages of `M` items each yields exactly
the `N * M` items `0, 1, ..., N*M - 1` — every item of every page, in
page-then-within-page order, with no duplicates (the result is the
duplicate-free `List.range (N * M)`) and no client-side reordering. -/
theorem C4_pagination_complete (N M : Nat) :
    requestList (pagesServer N M) N = .ok (List.range (N * M)) ∧
    (List.range (N * M)).length = N * M ∧
    (List.range (N * M)).Nodup := by
  refine ⟨?_, List.length_range _, List.nodup_range _⟩
  rcases Nat.eq_zero_or_pos N with hN | hN
  · subst hN
    simp [requestList, requestListAux]
  rcases Nat.eq_zero_or_pos M with hM | hM
  · subst hM
    cases N with
    | zero => exact (Nat.lt_irrefl 0 hN).elim
    | succ n =>
      show requestListAux (pagesServer (n + 1) 0) (n + 1) 0 = _
      have hserver : pagesServer (n + 1) 0 0 =
          .json (List.range' 0 0) (if 0 + 1 < n + 1 then some 1 else none) := by
        unfold pagesServer
        rw [if_pos (Nat.succ_pos n)]
      rw [requestListAux, hserver]
      simp
  · have h := requestListAux_pagesServer N M hM N 0 hN (by omega)
    unfold requestList
    rw [h]
    simp [List.range_eq_range']

/-- Walking the `malformedChain` yields the items of pages `i` through
`K - 1` and then halts with the malformed page `K`. -/
theorem requestListAux_malformedChain (K : Nat) :
    ∀ fuel i, i ≤ K → K - i < fuel →
      requestListAux (malformedChain K) fuel i =
        .malformedResponseAfter (List.range' i (K - i)) := by
  intro fuel
  induction fuel with
  | zero =>
    intro i hi hf
    omega
  | succ fuel ih =>
    intro i hi hf
    rcases Nat.lt_or_ge i K with hlt | hge
    · have hserver : malformedChain K i = .json [i] (some (i + 1)) := by
        unfold malformedChain
        rw [if_pos hlt]
      have hrec := ih (i + 1) hlt (by omega)
      rw [requestListAux, hserver]
      simp only [List.isEmpty_cons, hrec]
      have h1 : K - i = (K - (i + 1)) + 1 := by omega
      rw [h1, List.range'_succ i (K - (i + 1)) 1]
      rfl
    · have hiK : i = K := by omega
      subst hiK
      have hserver : malformedChain i i = .malformed := by
        unfold malformedChain
        rw [if_neg (by omega)]
      rw [requestListAux, hserver]
      simp [Nat.sub_self]

/-- C7: a successful non-204 response whose body fails to parse as JSON
surfaces a fatal `MalformedResponseError`; during pagination a malformed
body on an otherwise-200 page halts iteration there, after only the
fully-valid items of the preceding pages were yielded. -/
theorem C7_malformed_body_fatal :
    (∀ (r : HttpResponse Nat), 200 ≤ r.status → r.status < 300 →
      r.status ≠ 204 → r.body = .malformed →
      handleResponse r = .malformedResponseError) ∧
    (∀ K, requestList (malformedChain K) (K + 1) =
      .malformedResponseAfter (List.range K)) := by
  constructor
  · intro r h1 h2 h3 h4
    unfold handleResponse
    rw [if_pos ⟨h1, h2⟩, if_neg h3, h4]
  · intro K
    have h := requestListAux_malformedChain K (K + 1) 0 (Nat.zero_le K)
      (by omega)
    unfold requestList
    rw [h]
    simp [List.range_eq_range']

theorem C7_malformed_body_fatal_witness :
    (handleResponse (⟨200, none, Body.malformed⟩ : HttpResponse Nat) =
      .malformedResponseError) ∧
    (requestList (malformedChain 2) 3 =
      .malformedResponseAfter (List.range 2)) :=
  ⟨C7_malformed_body_fatal.1 ⟨200, none, Body.malformed⟩ (by decide)
      (by decide) (by decide) rfl,
   C7_malformed_body_fatal.2 2⟩

/-- C8: a fetched page with an empty `items` list and no `next` link
terminates the sequence without error, yielding nothing further — both
as the first page and when reached from a preceding non-empty page. -/
theorem C8_empty_page_terminates :
    (∀ (server : Nat → PageBody Nat) (fuel c : Nat),
      server c = .json [] none →
      requestListAux server (fuel + 1) c = .ok []) ∧
    (∀ (server : Nat → PageBody Nat) (fuel c c2 : Nat) (items : List Nat),
      server c = .json items (some c2) → items ≠ [] →
      server c2 = .json [] none →
      requestListAux server (fuel + 2) c = .ok items) := by
  constructor
  · intro server fuel c h
    rw [requestListAux, h]
    simp
  · intro server fuel c c2 items h1 h2 h3
    rw [requestListAux, h1]
    have hne : items.isEmpty ≠ true := by
      simp [List.isEmpty_iff, h2]
    have hrec : requestListAux server (fuel + 1) c2 = .ok [] := by
      rw [requestListAux, h3]
      simp
    simp only [if_neg hne, hrec]
    simp

theorem C8_empty_page_terminates_witness :
    (requestListAux (fun _ => (PageBody.json [] none : PageBody Nat)) 1 0 =
      .ok []) ∧
    (requestListAux
        (fun i => if i = 0 then PageBody.json [5] (some 1)
          else (PageBody.json [] none : PageBody Nat)) 2 0 =
      .ok [5]) :=
  ⟨C8_empty_page_terminates.1 _ 0 0 rfl,
   C8_empty_page_terminates.2 _ 0 0 1 [5] rfl (by decide) rfl⟩

/-- C1: with `access_token` equal to `None` or the empty string and no
SPARK_ACCESS_TOKEN environment variable, construction raises
`ciscosparkapiException` synchronously, before any network call. -/
theorem C1_missing_token_raises (tok : PyVal) (b : String) (n : Int)
    (h : tok = .pyNone ∨ tok = .pyStr "") :
    CiscoSparkAPI.init tok (.pyStr b) (.pyInt n) none =
      .error (.ciscosparkapiException ACCESS_TOKEN_ERROR_MESSAGE) := by
  rcases h with h | h <;> subst h <;> rfl

theorem C1_missing_token_raises_witness :
    CiscoSparkAPI.init .pyNone (.pyStr DEFAULT_BASE_URL) (.pyInt 60) none =
      .error (.ciscosparkapiException ACCESS_TOKEN_ERROR_MESSAGE) :=
  C1_missing_token_raises .pyNone DEFAULT_BASE_URL 60 (Or.inl rfl)

/-- C2: construction validates that `base_url` is non-empty and that
`timeout` is a positive integer — with a well-typed, resolvable token,
an empty `base_url` or a zero/negative `timeout` is a fatal
construction-time `ciscosparkapiException`-class error, not a deferred
runtime error. -/
theorem C2_value_validation (t b : String) (n : Int) (env : Option String)
    (ht : t ≠ "") (hv : b = "" ∨ n ≤ 0) :
    ∃ msg, CiscoSparkAPI.init (.pyStr t) (.pyStr b) (.pyInt n) env =
      .error (.ciscosparkapiException msg) := by
  refine ⟨RESTSESSION_VALIDATION_ERROR_MESSAGE, ?_⟩
  have hmain : CiscoSparkAPI.init (.pyStr t) (.pyStr b) (.pyInt n) env =
      RestSession.init t b n := by
    simp [CiscoSparkAPI.init, PyVal.isNone, PyVal.isStr, PyVal.truthy,
      PyVal.asStr, ht]
  rw [hmain]
  unfold RestSession.init
  rw [if_neg ht]
  rcases hv with hb | hn
  · rw [if_pos hb]
  · rcases eq_or_ne b "" with hb | hb
    · rw [if_pos hb]
    · rw [if_neg hb, if_pos hn]

theorem C2_value_validation_witness :
    (∃ msg, CiscoSparkAPI.init (.pyStr "token") (.pyStr "") (.pyInt 60)
      none = .error (.ciscosparkapiException msg)) ∧
    (∃ msg, CiscoSparkAPI.init (.pyStr "token") (.pyStr "u") (.pyInt 0)
      none = .error (.ciscosparkapiException msg)) :=
  ⟨C2_value_validation "token" "" 60 none (by decide) (Or.inl rfl),
   C2_value_validation "token" "u" 0 none (by decide) (Or.inr (by decide))⟩

/-- C3: credential resolution at construction follows the precedence
order of lines 107-108 of `__init__.py`: with a valid `base_url` and
`timeout`, a non-empty explicit `access_token` argument wins even when
the environment variable is set; a `None` or empty argument falls back
to a non-empty SPARK_ACCESS_TOKEN value; and with neither available
construction fails with `ciscosparkapiException` regardless of the other
arguments.  The resolved token is computed once, inside construction,
and stored in the immutable session. -/
theorem C3_token_precedence :
    (∀ (s e b : String) (n : Int), s ≠ "" → b ≠ "" → 0 < n →
      CiscoSparkAPI.init (.pyStr s) (.pyStr b) (.pyInt n) (some e) =
        .ok ⟨s, b, n⟩) ∧
    (∀ (tok : PyVal) (e b : String) (n : Int),
      (tok = .pyNone ∨ tok = .pyStr "") → e ≠ "" → b ≠ "" → 0 < n →
      CiscoSparkAPI.init tok (.pyStr b) (.pyInt n) (some e) =
        .ok ⟨e, b, n⟩) ∧
    (∀ (tok : PyVal) (b : String) (n : Int),
      (tok = .pyNone ∨ tok = .pyStr "") →
      CiscoSparkAPI.init tok (.pyStr b) (.pyInt n) none =
        .error (.ciscosparkapiException ACCESS_TOKEN_ERROR_MESSAGE)) := by
  refine ⟨?_, ?_, ?_⟩
  · intro s e b n hs hb hn
    simp [CiscoSparkAPI.init, PyVal.isNone, PyVal.isStr, PyVal.truthy,
      PyVal.asStr, RestSession.init, hs, hb, not_le.mpr hn]
  · intro tok e b n htok he hb hn
    rcases htok with h | h <;> subst h <;>
      simp [CiscoSparkAPI.init, PyVal.isNone, PyVal.isStr, PyVal.truthy,
        PyVal.asStr, RestSession.init, he, hb, not_le.mpr hn]
  · intro tok b n htok
    rcases htok with h | h <;> subst h <;> rfl

theorem C3_token_precedence_witness :
    (CiscoSparkAPI.init (.pyStr "arg") (.pyStr "u") (.pyInt 1)
        (some "envtok") = .ok ⟨"arg", "u", 1⟩) ∧
    (CiscoSparkAPI.init .pyNone (.pyStr "u") (.pyInt 1) (some "envtok") =
      .ok ⟨"envtok", "u", 1⟩) ∧
    (CiscoSparkAPI.init (.pyStr "") (.pyStr "u") (.pyInt 1) none =
      .error (.ciscosparkapiException ACCESS_TOKEN_ERROR_MESSAGE)) :=
  ⟨C3_token_precedence.1 "arg" "envtok" "u" 1 (by decide) (by decide)
      (by decide),
   C3_token_precedence.2.1 .pyNone "envtok" "u" 1 (Or.inl rfl) (by decide)
      (by decide) (by decide),
   C3_token_precedence.2.2 (.pyStr "") "u" 1 (Or.inr rfl)⟩

/-- C9: the base URL defaults to the production root
`https://api.ciscospark.com/v1/`, whose last character is a slash so
endpoint suffixes concatenate cleanly, and the timeout defaults to 60
seconds; a construction that omits both arguments stores exactly these
defaults. -/
theorem C9_defaults :
    DEFAULT_BASE_URL = "https://api.ciscospark.com/v1/" ∧
    DEFAULT_BASE_URL.back = '/' ∧
    DEFAULT_TIMEOUT = 60 ∧
    (∀ (t : String) (env : Option String), t ≠ "" →
      CiscoSparkAPI.initDefault (.pyStr t) env =
        .ok ⟨t, DEFAULT_BASE_URL, DEFAULT_TIMEOUT⟩) := by
  refine ⟨rfl, rfl, rfl, ?_⟩
  intro t env ht
  have hb : DEFAULT_BASE_URL ≠ "" := by decide
  have hn : ¬ DEFAULT_TIMEOUT ≤ 0 := by decide
  simp [CiscoSparkAPI.initDefault, CiscoSparkAPI.init, PyVal.isNone,
    PyVal.isStr, PyVal.truthy, PyVal.asStr, RestSession.init, ht, hb, hn]

theorem C9_defaults_witness :
    CiscoSparkAPI.initDefault (.pyStr "token") none =
      .ok ⟨"token", DEFAULT_BASE_URL, DEFAULT_TIMEOUT⟩ :=
  C9_defaults.2.2.2 "token" none (by decide)

/-- C10: a wrongly-typed constructor argument fails an `assert` on lines
104-106 of `__init__.py`, raising `AssertionError` — a different class
from `ciscosparkapiException` — and the token type assertion runs before
the environment lookup of line 107, so a wrongly-typed `access_token`
fails even when SPARK_ACCESS_TOKEN is set. -/
theorem C10_type_assertions :
    (∀ (tok base_url timeout : PyVal) (env : Option String),
      tok.isNone = false → tok.isStr = false →
      CiscoSparkAPI.init tok base_url timeout env = .error .assertionError) ∧
    (∀ (s : String) (base_url timeout : PyVal) (env : Option String),
      base_url.isStr = false →
      CiscoSparkAPI.init (.pyStr s) base_url timeout env =
        .error .assertionError) ∧
    (∀ (s b : String) (timeout : PyVal) (env : Option String),
      timeout.isInt = false →
      CiscoSparkAPI.init (.pyStr s) (.pyStr b) timeout env =
        .error .assertionError) ∧
    (∀ msg : String, InitError.assertionError ≠ .ciscosparkapiException msg) := by
  refine ⟨?_, ?_, ?_, ?_⟩
  · intro tok base_url timeout env h1 h2
    simp [CiscoSparkAPI.init, h1, h2]
  · intro s base_url timeout env h
    cases base_url <;> simp_all [PyVal.isStr, CiscoSparkAPI.init,
      PyVal.isNone]
  · intro s b timeout env h
    cases timeout <;> simp_all [PyVal.isInt, CiscoSparkAPI.init,
      PyVal.isNone, PyVal.isStr]
  · intro msg h
    exact InitError.noConfusion h

theorem C10_type_assertions_witness :
    (CiscoSparkAPI.init (.pyInt 42) (.pyStr "u") (.pyInt 1) (some "envtok") =
      .error .assertionError) ∧
    (CiscoSparkAPI.init (.pyStr "t") .pyOther (.pyInt 1) (some "envtok") =
      .error .assertionError) ∧
    (CiscoSparkAPI.init (.pyStr "t") (.pyStr "u") (.pyStr "1")
        (some "envtok") = .error .assertionError) ∧
    InitError.assertionError ≠ .ciscosparkapiException "msg" :=
  ⟨C10_type_assertions.1 (.pyInt 42) (.pyStr "u") (.pyInt 1) (some "envtok")
      rfl rfl,
   C10_type_assertions.2.1 "t" .pyOther (.pyInt 1) (some "envtok") rfl,
   C10_type_assertions.2.2.1 "t" "u" (.pyStr "1") (some "envtok") rfl,
   C10_type_assertions.2.2.2 "msg"⟩

end Ciscosparkapi
